import Mathlib

/-!
Verification development for the CareXpert frontend's session / real-time /
caching core.  The definitions below are shallow embeddings of:

* `src/lib/cache.ts`   — `CacheManager` (`set`, `get`, `remove`, `getOrFetch`);
* `src/store/authstore.ts` — the Zustand auth store (login, logout,
  `handleSessionExpiry`, `initCrossTabSync`) together with the
  `persist`/`partialize` middleware behaviour;
* `src/lib/api.ts`     — the 401 response interceptor with its
  `isHandlingUnauthorized` re-entrancy guard;
* `src/sockets/socket.ts` and the `useChatSocket` hook — transport-level
  "message" listeners and the UI-level handler registry with fan-out.

JavaScript `Date.now()` timestamps are modelled as `Nat` (milliseconds).
JSON payloads stored in the cache are only ever compared against `null`
and passed through unchanged by the code, so they are modelled by an
inductive `Value` with a distinguished `vnull` (JSON `null`) and
otherwise-opaque data constructors.
-/

/-- A JSON value as seen by `CacheManager`: the code only distinguishes
`null` from everything else, so non-null payloads are opaque. -/
inductive Value where
  | vnull : Value
  | vdata : Nat → Value
deriving DecidableEq, Repr

/-- The parsed shape `CacheItem<T>` stored by `CacheManager.set`:
`{ data, timestamp: Date.now(), ttl }`. -/
structure CacheItem where
  data : Value
  timestamp : Nat
  ttl : Option Nat
deriving DecidableEq, Repr

/-- What a raw storage slot can hold: a well-formed serialized `CacheItem`
(`JSON.stringify` round-trips), or a string `JSON.parse` rejects, which the
`try/catch` in `CacheManager.get` turns into a `null` result. -/
inductive Stored where
  | good : CacheItem → Stored
  | corrupt : Stored
deriving DecidableEq, Repr

/-- One Web Storage backend (the `localStorage` or `sessionStorage` instance
selected by the `storage` option) as an association list over keys. -/
abbrev Store := List (String × Stored)

/-- `storage.getItem(key)` followed by parsing. -/
def lookupStore (key : String) (s : Store) : Option Stored :=
  (s.find? (fun p => p.1 = key)).map (fun p => p.2)

/-- `storage.setItem(key, value)`: overwrite any previous binding. -/
def updateStore (key : String) (v : Stored) (s : Store) : Store :=
  (key, v) :: s.filter (fun p => p.1 ≠ key)

/-- `storage.removeItem(key)`. -/
def eraseStore (key : String) (s : Store) : Store :=
  s.filter (fun p => p.1 ≠ key)

/-- The `ttl`/`storage` options record (`CacheOptions`).  The `storage`
selector only picks which `Store` value the operations below receive, so it
is not repeated here. -/
structure CacheOptions where
  ttl : Option Nat
deriving DecidableEq, Repr

namespace CacheManager

/-- JavaScript truthiness of `cacheItem.ttl`: `undefined` and `0` are falsy. -/
def ttlActive : Option Nat → Bool
  | none => false
  | some n => n ≠ 0

/-- `CacheManager.set(key, data, { ttl })` at time `now`: store
`{ data, timestamp: now, ttl }` under `key`. -/
def set (key : String) (data : Value) (opts : CacheOptions) (now : Nat)
    (s : Store) : Store :=
  updateStore key (.good { data := data, timestamp := now, ttl := opts.ttl }) s

/-- `CacheManager.get(key)` at time `now`: returns the value (`vnull` models
the JS `null` result) together with the storage after the call — on expiry
the stale entry is removed as a side effect. -/
def get (key : String) (s : Store) (now : Nat) : Value × Store :=
  match lookupStore key s with
  | none => (.vnull, s)
  | some .corrupt => (.vnull, s)
  | some (.good it) =>
    if ttlActive it.ttl then
      if now - it.timestamp > it.ttl.getD 0 then (.vnull, eraseStore key s)
      else (it.data, s)
    else (it.data, s)

/-- `CacheManager.getOrFetch(key, fetchFn, options)`.  `fetchVal` is the value
`fetchFn` resolves with; `nowGet` is the clock at the initial `get`, `nowSet`
the clock when the fetched result is stored.  The third component counts how
often `fetchFn` was invoked during this call. -/
def getOrFetch (key : String) (fetchVal : Value) (opts : CacheOptions)
    (nowGet nowSet : Nat) (s : Store) : Value × Store × Nat :=
  let res := get key s nowGet
  if res.1 ≠ .vnull then (res.1, res.2, 0)
  else (fetchVal, set key fetchVal opts nowSet res.2, 1)

/-- A stored entry is expired at `now` exactly when the code's check
`cacheItem.ttl && now - cacheItem.timestamp > cacheItem.ttl` holds. -/
def expiredAt (it : CacheItem) (now : Nat) : Prop :=
  ttlActive it.ttl = true ∧ now - it.timestamp > it.ttl.getD 0

instance (it : CacheItem) (now : Nat) : Decidable (expiredAt it now) := by
  unfold expiredAt; infer_instance

end CacheManager

/-!
## Auth store (`src/store/authstore.ts` and its sibling revision)

The repository carries two close revisions of the store.  The file
`src/store/authstore.ts` (namespace `AuthStoreNamed` below) has
`logout: () => set({ user: null })` and a `handleSessionExpiry` that does not
broadcast; the sibling revision (namespace `AuthStoreSync`) defines
`logout` as `handleSessionExpiry('user_logout')` and broadcasts the logout
on a `BroadcastChannel` with a storage-key fallback.  Both share the
`persist` configuration `{ name: "auth-storage", partialize: s => ({ user:
s.user }) }`: every `set` rewrites the `"auth-storage"` record with the
selected slice of the new state.
-/

/-- The `User` record the stores build from a login response. -/
structure User where
  id : String
  name : String
  email : String
  profilePicture : Option String
  role : String
  refreshToken : Option String
deriving DecidableEq, Repr

/-- The in-memory Zustand state (`user`, `isLoading`, `sessionExpiredAt`). -/
structure AuthState where
  user : Option User
  isLoading : Bool
  sessionExpiredAt : Option Nat
deriving DecidableEq, Repr

/-- The durable record written under the `"auth-storage"` key: the result of
the store's `partialize`, i.e. `{ user: state.user }` and nothing else. -/
structure PersistRecord where
  user : Option User
deriving DecidableEq, Repr

/-- The `partialize` function of the persist configuration. -/
def persistedOf (st : AuthState) : PersistRecord :=
  { user := st.user }

/-- One tab's view: the store state, the `"auth-storage"` slot of the shared
`localStorage` (`none` = key absent), and whether the shared socket is
connected. -/
structure StoreState where
  auth : AuthState
  storage : Option PersistRecord
  socketConnected : Bool
deriving DecidableEq, Repr

/-- A Zustand `set(...)` under the persist middleware: install the new state
and rewrite the `"auth-storage"` record with its `partialize` image. -/
def persistSet (st : AuthState) (w : StoreState) : StoreState :=
  { w with auth := st, storage := some (persistedOf st) }

/-- The payload of the backend login response (`res.data.data` /
`LoginResponse`). -/
structure LoginResponse where
  id : String
  name : String
  email : String
  profilePicture : Option String
  role : String
  refreshToken : Option String
deriving DecidableEq, Repr

namespace AuthStoreNamed

/-- The `userData` object built in `login` of `src/store/authstore.ts`:
identity fields plus `role || "PATIENT"` (empty string is falsy in JS) plus
`refreshToken: loginResponse.refreshToken`. -/
def userFromLogin (r : LoginResponse) : User :=
  { id := r.id, name := r.name, email := r.email
    profilePicture := r.profilePicture
    role := if r.role = "" then "PATIENT" else r.role
    refreshToken := r.refreshToken }

/-- `logout: () => { set({ user: null }); }` — the only effect is the state
update (and the persist middleware rewriting the durable record). -/
def logout (w : StoreState) : StoreState :=
  persistSet { w.auth with user := none } w

/-- `setUser: (user) => set({ user, sessionExpiredAt: null })`. -/
def setUser (u : User) (w : StoreState) : StoreState :=
  persistSet { w.auth with user := some u, sessionExpiredAt := none } w

/-- `handleSessionExpiry` of `src/store/authstore.ts`: no-op without a user;
otherwise clear the user, record the expiry timestamp, disconnect the
socket and remove the `"auth-storage"` key. -/
def handleSessionExpiry (now : Nat) (w : StoreState) : StoreState :=
  match w.auth.user with
  | none => w
  | some _ =>
    let w1 := persistSet { w.auth with user := none, sessionExpiredAt := some now } w
    { w1 with socketConnected := false, storage := none }

/-- The success path of `login`: `set({ isLoading: true, sessionExpiredAt:
null })`, await the response, then `set({ user: userData, isLoading:
false })`. -/
def loginSuccess (r : LoginResponse) (w : StoreState) : StoreState :=
  let w1 := persistSet { w.auth with isLoading := true, sessionExpiredAt := none } w
  persistSet { w1.auth with user := some (userFromLogin r), isLoading := false } w1

end AuthStoreNamed

/-- A cross-tab signal another same-origin tab can observe: a
`BroadcastChannel` message `{ type: 'logout', reason }`, or a `storage`
event on one of the keys the store touches (write and removal of
`"auth-storage"`, write-then-removal of the `"carexpert-logout-event"`
fallback key). -/
inductive TabSignal where
  | bcLogout (reason : String)
  | authStorageWritten (rec : PersistRecord)
  | authStorageRemoved
  | logoutKeyWritten (ts : Nat)
  | logoutKeyRemoved
deriving DecidableEq, Repr

namespace AuthStoreSync

/-- The `userData` object built in the sibling revision's `login` (no role
defaulting there: `role: res.data.data.role`). -/
def userFromLogin (r : LoginResponse) : User :=
  { id := r.id, name := r.name, email := r.email
    profilePicture := r.profilePicture, role := r.role
    refreshToken := r.refreshToken }

/-- `handleSessionExpiry(reason)` of the broadcasting revision: no-op
without a user; otherwise clear state (recording `sessionExpiredAt`),
disconnect the socket, remove `"auth-storage"`, and broadcast the logout —
on a `BroadcastChannel` when available (`bcOk`), else by
writing-then-removing the fallback storage key.  Returns the new tab state
together with the signals other tabs observe (the persist rewrite and the
key removal both fire `storage` events in other tabs). -/
def handleSessionExpiry (reason : String) (now : Nat) (bcOk : Bool)
    (w : StoreState) : StoreState × List TabSignal :=
  match w.auth.user with
  | none => (w, [])
  | some _ =>
    let st : AuthState :=
      { user := none, isLoading := w.auth.isLoading, sessionExpiredAt := some now }
    let w1 := persistSet st w
    let w2 := { w1 with socketConnected := false, storage := none }
    let sigs := [TabSignal.authStorageWritten (persistedOf st),
                 TabSignal.authStorageRemoved] ++
      (if bcOk then [TabSignal.bcLogout reason]
       else [TabSignal.logoutKeyWritten now, TabSignal.logoutKeyRemoved])
    (w2, sigs)

/-- `logout: () => { get().handleSessionExpiry('user_logout'); }`. -/
def logout (now : Nat) (bcOk : Bool) (w : StoreState) : StoreState × List TabSignal :=
  handleSessionExpiry "user_logout" now bcOk w

/-- How `api.post('/user/login', ...)` can settle, as far as the `catch`
block can distinguish: an HTTP-ok response carrying the JSON envelope, an
axios error with a response attached (backend-reported failure), or an
axios error without a response (transport/network failure). -/
inductive ApiResult where
  | ok (success : Bool) (d : LoginResponse)
  | httpErr (msg : Option String)
  | netErr
deriving DecidableEq, Repr

/-- JavaScript `s || dflt` for the optional backend message
(`err.response.data?.message || "Login failed"`): `undefined` and the empty
string are falsy. -/
def jsOr (s : Option String) (dflt : String) : String :=
  match s with
  | none => dflt
  | some t => if t = "" then dflt else t

/-- The `login` action of the broadcasting revision: set loading, then on a
successful envelope install the user; a `success: false` envelope throws a
plain `Error` which the `catch` re-raises as "Unknown error occurred"
(it is not an axios error); an axios error with a response surfaces the
backend message; anything else surfaces "Unknown error occurred".  The
second component is the settled promise: `Except.error m` models the
rejection message. -/
def login (r : ApiResult) (w : StoreState) : StoreState × Except String Unit :=
  let w1 := persistSet { w.auth with isLoading := true, sessionExpiredAt := none } w
  match r with
  | .ok true d =>
    (persistSet { user := some (userFromLogin d), isLoading := false,
                  sessionExpiredAt := none } w1, .ok ())
  | .ok false _ =>
    (persistSet { w1.auth with isLoading := false } w1, .error "Unknown error occurred")
  | .httpErr m =>
    (persistSet { w1.auth with isLoading := false } w1, .error (jsOr m "Login failed"))
  | .netErr =>
    (persistSet { w1.auth with isLoading := false } w1, .error "Unknown error occurred")

end AuthStoreSync

/-- A receiving tab: its store view plus where `window.location.href` was
pointed, if anywhere. -/
structure Tab where
  store : StoreState
  navigatedTo : Option String
deriving DecidableEq, Repr

/-- The handlers installed by `initCrossTabSync` reacting to one observed
signal.  The `BroadcastChannel` handler fires on `{ type: 'logout' }`
messages; the `storage` handler fires on the fallback key and on external
removal of `"auth-storage"`; each clears the session through the store's
`set` (whose persist middleware rewrites the record), disconnects the
socket, removes `"auth-storage"` where the source does, and navigates to
`/auth/login` — all only when a user is present. -/
def onSignal (now : Nat) (sig : TabSignal) (t : Tab) : Tab :=
  match t.store.auth.user with
  | none => t
  | some _ =>
    let st : AuthState :=
      { user := none, isLoading := t.store.auth.isLoading, sessionExpiredAt := some now }
    match sig with
    | .bcLogout _ =>
      { store := { (persistSet st t.store) with socketConnected := false, storage := none }
        navigatedTo := some "/auth/login" }
    | .logoutKeyWritten _ =>
      { store := { (persistSet st t.store) with socketConnected := false, storage := none }
        navigatedTo := some "/auth/login" }
    | .logoutKeyRemoved =>
      { store := { (persistSet st t.store) with socketConnected := false, storage := none }
        navigatedTo := some "/auth/login" }
    | .authStorageRemoved =>
      { store := { (persistSet st t.store) with socketConnected := false }
        navigatedTo := some "/auth/login" }
    | .authStorageWritten _ => t

/-!
## 401 interceptor guard (`src/lib/api.ts`)

`let isHandlingUnauthorized = false;` — on a 401, if the flag is clear the
interceptor fires the recovery block (toast, `handleSessionExpiry`,
navigation to `/auth/login`), sets the flag, and schedules
`setTimeout(() => { isHandlingUnauthorized = false; }, 2000)`.  The guard
state is modelled as `Option Nat`: `some u` means the flag is set and the
pending timer clears it at time `u`; a 401 at time `t ≥ u` therefore sees
the flag already cleared.
-/

/-- The reset delay of the `setTimeout` in the interceptor (ms). -/
def cooldownMs : Nat := 2000

/-- One 401 response observed at time `t`: returns the new guard state and
whether the recovery block (notification + `handleSessionExpiry` +
navigation) fired for this response. -/
def stepUnauthorized (st : Option Nat) (t : Nat) : Option Nat × Bool :=
  match st with
  | some u => if t < u then (st, false) else (some (t + cooldownMs), true)
  | none => (some (t + cooldownMs), true)

/-- Process a timeline of 401 arrival times; returns the final guard state
and how many times the recovery block fired. -/
def runUnauthorized : Option Nat → List Nat → Option Nat × Nat
  | st, [] => (st, 0)
  | st, t :: ts =>
    let r := stepUnauthorized st t
    let rest := runUnauthorized r.1 ts
    (rest.1, (if r.2 then 1 else 0) + rest.2)

/-!
## Socket listeners (`src/sockets/socket.ts`, `useChatSocket`)
-/

/-- The transport-level side of the socket: the list of listeners currently
attached for the `"message"` event, in attachment order, identified by the
identity of the handler closure. -/
structure SocketState where
  listeners : List Nat
deriving DecidableEq, Repr

/-- `socket.on("message", f)`: appends the handler. -/
def socketOn (lid : Nat) (s : SocketState) : SocketState :=
  { listeners := s.listeners ++ [lid] }

/-- `socket.off("message", f)`: removes that handler. -/
def socketOff (lid : Nat) (s : SocketState) : SocketState :=
  { listeners := s.listeners.filter (fun l => l ≠ lid) }

/-- `onMessage(callback)` from `src/sockets/socket.ts`: every call executes
`socket.on("message", (msg) => callback(msg))`, i.e. attaches a freshly
created wrapper closure (`freshId`) as one more transport-level listener. -/
def onMessage (freshId : Nat) (s : SocketState) : SocketState :=
  socketOn freshId s

/-- The closure identity of the hook's single stable `onSocketMessage`
forwarder (`useCallback` with an empty dependency list). -/
def onSocketMessageId : Nat := 0

/-- The mounted `useChatSocket` hook: the transport socket together with the
UI-level handler registry `handlersRef.current`. -/
structure HookSys where
  sock : SocketState
  handlers : List Nat
deriving DecidableEq, Repr

/-- Mounting the hook: the effect runs `socket.on('message',
onSocketMessage)` once; the registry starts empty. -/
def mountHook (s : SocketState) : HookSys :=
  { sock := socketOn onSocketMessageId s, handlers := [] }

/-- A UI-level registry operation: `subscribe(handler)` pushes onto
`handlersRef.current`; the returned unsubscriber filters that handler out. -/
inductive SubOp where
  | sub (h : Nat)
  | unsub (h : Nat)
deriving DecidableEq, Repr

/-- Apply one registry operation; `handlersRef` is touched, the socket is
not. -/
def applySubOp (w : HookSys) (op : SubOp) : HookSys :=
  match op with
  | .sub h => { w with handlers := w.handlers ++ [h] }
  | .unsub h => { w with handlers := w.handlers.filter (fun x => x ≠ h) }

/-- Run a sequence of subscribe/unsubscribe operations. -/
def runSubOps (w : HookSys) (ops : List SubOp) : HookSys :=
  ops.foldl applySubOp w

/-- A UI callback in `handlersRef.current`: its identity and whether
invoking it on the current event throws. -/
structure Handler where
  id : Nat
  throws : Bool
deriving DecidableEq, Repr

/-- Invoking one callback: models `h(msg)` completing or raising. -/
def invokeHandler (h : Handler) : Except Unit Unit :=
  if h.throws then .error () else .ok ()

/-- The body of `onSocketMessage`: `handlersRef.current.forEach((h) => {
try { h(msg); } catch (e) { console.error(...); } })`.  Returns the list of
callbacks actually invoked, in order, and the list of callbacks whose
exception was caught and logged. -/
def onSocketMessageRun : List Handler → List Nat × List Nat
  | [] => ([], [])
  | h :: rest =>
    let r := onSocketMessageRun rest
    match invokeHandler h with
    | .ok _ => (h.id :: r.1, r.2)
    | .error _ => (h.id :: r.1, h.id :: r.2)

/-! ## Helper lemmas -/

theorem lookupStore_update (key : String) (v : Stored) (s : Store) :
    lookupStore key (updateStore key v s) = some v := by
  simp [lookupStore, updateStore]

theorem lookupStore_erase (key : String) (s : Store) :
    lookupStore key (eraseStore key s) = none := by
  induction s with
  | nil => rfl
  | cons p rest ih =>
    by_cases h : p.1 = key
    · rw [eraseStore, List.filter_cons_of_neg (by simp [h])]
      exact ih
    · rw [eraseStore, List.filter_cons_of_pos (by simp [h])]
      rw [eraseStore] at ih
      rw [lookupStore, List.find?]
      simp only [decide_eq_true_eq, h]
      exact ih

theorem get_of_fresh (key : String) (s : Store) (now : Nat) (it : CacheItem)
    (hl : lookupStore key s = some (.good it))
    (hf : ¬ CacheManager.expiredAt it now) :
    CacheManager.get key s now = (it.data, s) := by
  unfold CacheManager.get
  rw [hl]
  by_cases ht : CacheManager.ttlActive it.ttl
  · have hage : ¬ (now - it.timestamp > it.ttl.getD 0) := fun hgt => hf ⟨ht, hgt⟩
    simp [ht, hage]
  · simp [ht]

/-- C10: a cache entry stored without a TTL option, or with TTL `0`, is a
`get` hit at every later time — the expiry check is skipped because the
stored `ttl` field is JS-falsy, so the entry neither expires nor is it
lazily evicted (the storage is returned unchanged). -/
theorem cache_no_ttl_never_expires (key : String) (v : Value)
    (opts : CacheOptions) (tset now : Nat) (s : Store)
    (h : opts.ttl = none ∨ opts.ttl = some 0) :
    CacheManager.get key (CacheManager.set key v opts tset s) now
      = (v, CacheManager.set key v opts tset s) := by
  have hl : lookupStore key (CacheManager.set key v opts tset s)
      = some (.good { data := v, timestamp := tset, ttl := opts.ttl }) :=
    lookupStore_update key (.good { data := v, timestamp := tset, ttl := opts.ttl }) s
  unfold CacheManager.get
  rw [hl]
  rcases h with h | h <;> simp [CacheManager.ttlActive, h]

/-- Witness for C10 at concrete inputs (no TTL given, and TTL `0`). -/
theorem cache_no_ttl_never_expires_witness :
    CacheManager.get "k" (CacheManager.set "k" (.vdata 3) ⟨none⟩ 0 []) 999999
      = (.vdata 3, CacheManager.set "k" (.vdata 3) ⟨none⟩ 0 []) ∧
    CacheManager.get "k" (CacheManager.set "k" (.vdata 3) ⟨some 0⟩ 0 []) 999999
      = (.vdata 3, CacheManager.set "k" (.vdata 3) ⟨some 0⟩ 0 []) :=
  ⟨cache_no_ttl_never_expires "k" (.vdata 3) ⟨none⟩ 0 999999 [] (Or.inl rfl),
   cache_no_ttl_never_expires "k" (.vdata 3) ⟨some 0⟩ 0 999999 [] (Or.inr rfl)⟩

/-- C5 counterexample: an entry stored with TTL value `T = 0` read at
elapsed time `1 > T` is returned as a hit (the stored value, not absent),
because `if (cacheItem.ttl)` is false for `0` — so the claim's expiry
behaviour does not hold for every TTL value `T`. -/
theorem cache_ttl_zero_counterexample :
    (1 : Nat) - 0 > 0 ∧
    CacheManager.get "k" (CacheManager.set "k" (.vdata 7) ⟨some 0⟩ 0 []) 1
      = (.vdata 7, CacheManager.set "k" (.vdata 7) ⟨some 0⟩ 0 []) ∧
    Value.vdata 7 ≠ Value.vnull := by
  refine ⟨by decide, ?_, by decide⟩
  rfl

/-- C5 (amended to positive TTLs): for every entry stored by `set` with a
positive TTL `T`, `get` returns the stored value while the elapsed time is
`< T`, and at elapsed time `> T` returns absent and deletes the stale entry
from the backing storage. -/
theorem cache_ttl_spec (key : String) (v : Value) (T tset tget : Nat)
    (s : Store) (hT : 0 < T) :
    (tget - tset < T →
      CacheManager.get key (CacheManager.set key v ⟨some T⟩ tset s) tget
        = (v, CacheManager.set key v ⟨some T⟩ tset s)) ∧
    (tget - tset > T →
      CacheManager.get key (CacheManager.set key v ⟨some T⟩ tset s) tget
        = (.vnull, eraseStore key (CacheManager.set key v ⟨some T⟩ tset s)) ∧
      lookupStore key
        (CacheManager.get key (CacheManager.set key v ⟨some T⟩ tset s) tget).2
        = none) := by
  have hl : lookupStore key (CacheManager.set key v ⟨some T⟩ tset s)
      = some (.good { data := v, timestamp := tset, ttl := some T }) :=
    lookupStore_update key (.good { data := v, timestamp := tset, ttl := some T }) s
  have ht : CacheManager.ttlActive (some T) = true := by
    simp [CacheManager.ttlActive]
    omega
  constructor
  · intro hlt
    have hage : ¬ (tget - tset > T) := by omega
    unfold CacheManager.get
    rw [hl]
    simp [ht, hage]
  · intro hgt
    have hget : CacheManager.get key (CacheManager.set key v ⟨some T⟩ tset s) tget
        = (.vnull, eraseStore key (CacheManager.set key v ⟨some T⟩ tset s)) := by
      unfold CacheManager.get
      rw [hl]
      simp [ht, hgt]
    exact ⟨hget, by rw [hget]; exact lookupStore_erase key _⟩

/-- Witness for the amended C5 at the spec's own example: TTL 5000 ms, a
read at elapsed time 1 hits, a read at elapsed time 5001 misses and the key
is gone from storage. -/
theorem cache_ttl_spec_witness :
    CacheManager.get "k" (CacheManager.set "k" (.vdata 1) ⟨some 5000⟩ 0 []) 1
      = (.vdata 1, CacheManager.set "k" (.vdata 1) ⟨some 5000⟩ 0 []) ∧
    (CacheManager.get "k" (CacheManager.set "k" (.vdata 1) ⟨some 5000⟩ 0 []) 5001).1
      = .vnull ∧
    lookupStore "k"
      (CacheManager.get "k" (CacheManager.set "k" (.vdata 1) ⟨some 5000⟩ 0 []) 5001).2
      = none := by
  have h1 := (cache_ttl_spec "k" (.vdata 1) 5000 0 1 [] (by decide)).1 (by decide)
  have h2 := (cache_ttl_spec "k" (.vdata 1) 5000 0 5001 [] (by decide)).2 (by decide)
  exact ⟨h1, by rw [h2.1], h2.2⟩

/-- C6: in a single `getOrFetch` call, a present, unexpired, non-null cached
entry is returned with `fetchFn` not invoked and the storage untouched;
otherwise (`get` reports a miss) `fetchFn` is invoked exactly once, its
result is stored under the given options and returned; and in every case
`fetchFn` runs at most once. -/
theorem getOrFetch_spec (key : String) (fv : Value) (opts : CacheOptions)
    (n1 n2 : Nat) (s : Store) :
    (∀ it : CacheItem, lookupStore key s = some (.good it) →
        ¬ CacheManager.expiredAt it n1 → it.data ≠ .vnull →
        CacheManager.getOrFetch key fv opts n1 n2 s = (it.data, s, 0)) ∧
    ((CacheManager.get key s n1).1 = .vnull →
        CacheManager.getOrFetch key fv opts n1 n2 s
          = (fv, CacheManager.set key fv opts n2 (CacheManager.get key s n1).2, 1)) ∧
    (CacheManager.getOrFetch key fv opts n1 n2 s).2.2 ≤ 1 := by
  refine ⟨?_, ?_, ?_⟩
  · intro it hl hf hne
    have hg := get_of_fresh key s n1 it hl hf
    unfold CacheManager.getOrFetch
    rw [hg]
    simp [hne]
  · intro hmiss
    unfold CacheManager.getOrFetch
    simp [hmiss]
  · by_cases h : (CacheManager.get key s n1).1 = Value.vnull <;>
      simp [CacheManager.getOrFetch, h]

/-- Witness for C6: a hit on a fresh entry returns it without fetching; a
miss on the empty storage fetches once and stores the result. -/
theorem getOrFetch_spec_witness :
    CacheManager.getOrFetch "k" (.vdata 5) ⟨some 100⟩ 3 4
        [("k", .good ⟨.vdata 9, 0, some 100⟩)]
      = (.vdata 9, [("k", .good ⟨.vdata 9, 0, some 100⟩)], 0) ∧
    CacheManager.getOrFetch "k" (.vdata 5) ⟨some 100⟩ 3 4 []
      = (.vdata 5, CacheManager.set "k" (.vdata 5) ⟨some 100⟩ 4 [], 1) := by
  constructor
  · exact (getOrFetch_spec "k" (.vdata 5) ⟨some 100⟩ 3 4
      [("k", .good ⟨.vdata 9, 0, some 100⟩)]).1 ⟨.vdata 9, 0, some 100⟩
      rfl (by decide) (by decide)
  · have h := (getOrFetch_spec "k" (.vdata 5) ⟨some 100⟩ 3 4 []).2.1 rfl
    simpa [CacheManager.get] using h

theorem applySubOp_sock (w : HookSys) (op : SubOp) :
    (applySubOp w op).sock = w.sock := by
  cases op <;> rfl

theorem runSubOps_sock (ops : List SubOp) (w : HookSys) :
    (runSubOps w ops).sock = w.sock := by
  induction ops generalizing w with
  | nil => rfl
  | cons op rest ih =>
    show (runSubOps (applySubOp w op) rest).sock = w.sock
    rw [ih (applySubOp w op), applySubOp_sock]

/-- C3 counterexample: registering two UI callbacks through `onMessage`
attaches two transport-level `"message"` listeners to a socket that had
none — more than the one listener the claim allows. -/
theorem onMessage_listener_per_call :
    ((onMessage 2 (onMessage 1 ⟨[]⟩)).listeners).length = 2 ∧
    ¬ ((onMessage 2 (onMessage 1 ⟨[]⟩)).listeners).length ≤ 1 := by
  decide

/-- C3 (amended to the `useChatSocket` subscribe API): after the hook's
mount effect attaches its single `onSocketMessage` forwarder, every
sequence of `subscribe`/unsubscribe registry operations leaves the
transport-level listener state untouched, and on a socket that had no
`"message"` listener the count is exactly one regardless of how many UI
callbacks were added or removed.  (`onMessage`, by contrast, attaches one
transport-level listener per call — see the counterexample.) -/
theorem subscribe_keeps_single_transport_listener (ops : List SubOp)
    (s0 : SocketState) :
    (runSubOps (mountHook s0) ops).sock = (mountHook s0).sock ∧
    ((runSubOps (mountHook ⟨[]⟩) ops).sock.listeners).length = 1 := by
  refine ⟨runSubOps_sock ops (mountHook s0), ?_⟩
  rw [runSubOps_sock ops (mountHook ⟨[]⟩)]
  rfl

/-- C4: for one inbound `"message"` event, the shared `onSocketMessage`
forwarder invokes every currently registered callback exactly once, in
registration order (the invocation log equals the registry, id for id), and
this holds whatever subset of callbacks throws — a thrown exception is
caught, logged (second component), and does not stop later callbacks. -/
theorem fanout_invokes_all_in_order (hs : List Handler) :
    (onSocketMessageRun hs).1 = hs.map Handler.id ∧
    (onSocketMessageRun hs).2
      = (hs.filter (fun h => h.throws)).map Handler.id := by
  induction hs with
  | nil => exact ⟨rfl, rfl⟩
  | cons h rest ih =>
    by_cases ht : h.throws <;>
      simp [onSocketMessageRun, invokeHandler, ht, ih.1, ih.2,
            List.filter_cons]

theorem runUnauthorized_busy (b : Nat) (ts : List Nat)
    (h : ∀ t ∈ ts, t < b) :
    runUnauthorized (some b) ts = (some b, 0) := by
  induction ts with
  | nil => rfl
  | cons t rest ih =>
    have ht : t < b := h t (List.mem_cons_self t rest)
    have hr := ih (fun x hx => h x (List.mem_cons_of_mem t hx))
    simp [runUnauthorized, stepUnauthorized, ht, hr]

theorem runUnauthorized_append (xs ys : List Nat) (st : Option Nat) :
    runUnauthorized st (xs ++ ys)
      = ((runUnauthorized (runUnauthorized st xs).1 ys).1,
         (runUnauthorized st xs).2
           + (runUnauthorized (runUnauthorized st xs).1 ys).2) := by
  induction xs generalizing st with
  | nil => simp [runUnauthorized]
  | cons x rest ih =>
    simp [runUnauthorized, ih, Nat.add_assoc]

/-- C2: with the guard idle, a burst of 401s — a first one at `t0` and any
further ones strictly inside the 2000 ms cool-down window — fires the
recovery block (notification, `handleSessionExpiry`, navigation) exactly
once, and one more 401 arriving once the cool-down has elapsed fires it
exactly once more. -/
theorem unauthorized_dedup (t0 u : Nat) (ts : List Nat)
    (hts : ∀ t ∈ ts, t < t0 + cooldownMs) (hu : t0 + cooldownMs ≤ u) :
    (runUnauthorized none (t0 :: ts)).2 = 1 ∧
    (runUnauthorized none (t0 :: (ts ++ [u]))).2 = 2 := by
  have hbusy := runUnauthorized_busy (t0 + cooldownMs) ts hts
  have hfull : runUnauthorized none (t0 :: ts)
      = (some (t0 + cooldownMs), 1) := by
    simp [runUnauthorized, stepUnauthorized, hbusy]
  refine ⟨by rw [hfull], ?_⟩
  have happ := runUnauthorized_append ts [u] (some (t0 + cooldownMs))
  have hnlt : ¬ u < t0 + cooldownMs := Nat.not_lt.mpr hu
  have hu1 : runUnauthorized (some (t0 + cooldownMs)) [u]
      = (some (u + cooldownMs), 1) := by
    simp [runUnauthorized, stepUnauthorized, hnlt]
  show (runUnauthorized none (t0 :: (ts ++ [u]))).2 = 2
  have : runUnauthorized none (t0 :: (ts ++ [u]))
      = ((runUnauthorized (some (t0 + cooldownMs)) (ts ++ [u])).1,
         (if true then 1 else 0)
           + (runUnauthorized (some (t0 + cooldownMs)) (ts ++ [u])).2) := by
    simp [runUnauthorized, stepUnauthorized]
  rw [this, happ, hbusy, hu1]
  simp

/-- Witness for C2: the spec's example burst — five 401s inside 200 ms fire
recovery once; one more at 2500 ms (after the 2000 ms cool-down) fires it
a second time. -/
theorem unauthorized_dedup_witness :
    (runUnauthorized none (0 :: [50, 100, 150, 199])).2 = 1 ∧
    (runUnauthorized none (0 :: ([50, 100, 150, 199] ++ [2500]))).2 = 2 :=
  unauthorized_dedup 0 2500 [50, 100, 150, 199] (by decide) (by decide)

/-- A concrete logged-in user for the evaluation theorems below. -/
def demoUser : User :=
  { id := "u1", name := "Asha", email := "a@x.com", profilePicture := none
    role := "PATIENT", refreshToken := none }

/-- C1 (evaluation at the failing input): after a successful `login` whose
backend response carries `refreshToken: "rt-secret"`, the record the
persist middleware writes under `"auth-storage"` is `{ user }` with
`user.refreshToken = "rt-secret"` — the durable record does contain a
refresh-token field, contradicting the token-free-persistence invariant. -/
theorem login_persists_refresh_token :
    (AuthStoreNamed.loginSuccess
        { id := "u1", name := "Asha", email := "a@x.com",
          profilePicture := none, role := "PATIENT",
          refreshToken := some "rt-secret" }
        { auth := { user := none, isLoading := true, sessionExpiredAt := none },
          storage := none, socketConnected := false }).storage
      = some { user := some { id := "u1", name := "Asha", email := "a@x.com",
                              profilePicture := none, role := "PATIENT",
                              refreshToken := some "rt-secret" } } ∧
    (some "rt-secret" : Option String) ≠ none := by
  exact ⟨rfl, by decide⟩

/-- C7 (evaluation at the failing input): calling the named store's
`logout` from a logged-in state with a connected socket clears the user,
but leaves the socket connected and leaves the `"auth-storage"` record in
place (rewritten to `{ user: null }` by the persist middleware rather than
removed) — `logout` neither closes the real-time connection nor removes
the durable record. -/
theorem logout_leaves_socket_and_record :
    (AuthStoreNamed.logout
        { auth := { user := some demoUser, isLoading := false,
                    sessionExpiredAt := none },
          storage := some { user := some demoUser },
          socketConnected := true }).auth.user = none ∧
    (AuthStoreNamed.logout
        { auth := { user := some demoUser, isLoading := false,
                    sessionExpiredAt := none },
          storage := some { user := some demoUser },
          socketConnected := true }).socketConnected = true ∧
    (AuthStoreNamed.logout
        { auth := { user := some demoUser, isLoading := false,
                    sessionExpiredAt := none },
          storage := some { user := some demoUser },
          socketConnected := true }).storage = some { user := none } := by
  exact ⟨rfl, rfl, rfl⟩

/-- C8: `handleSessionExpiry` in a tab with an active session performs the
same cleanup as `logout` (which is `handleSessionExpiry('user_logout')`):
it clears the user, records the expiry timestamp, disconnects the socket
and removes the `"auth-storage"` record; it emits the cross-tab logout
broadcast when the broadcast channel is available and the fallback storage
signal otherwise (removal of `"auth-storage"` is observable in either
case); and any other tab with an active session that receives the
broadcast message, the fallback-key signal, or the storage-key removal
clears its session and navigates to `/auth/login`. -/
theorem session_expiry_cross_tab (w : StoreState) (v : User) (reason : String)
    (now : Nat) (bcOk : Bool) (hw : w.auth.user = some v) :
    ((AuthStoreSync.handleSessionExpiry reason now bcOk w).1.auth.user = none ∧
     (AuthStoreSync.handleSessionExpiry reason now bcOk w).1.auth.sessionExpiredAt
       = some now ∧
     (AuthStoreSync.handleSessionExpiry reason now bcOk w).1.socketConnected
       = false ∧
     (AuthStoreSync.handleSessionExpiry reason now bcOk w).1.storage = none) ∧
    (AuthStoreSync.handleSessionExpiry reason now bcOk w).1
      = (AuthStoreSync.logout now bcOk w).1 ∧
    TabSignal.authStorageRemoved
      ∈ (AuthStoreSync.handleSessionExpiry reason now bcOk w).2 ∧
    (bcOk = true →
      TabSignal.bcLogout reason
        ∈ (AuthStoreSync.handleSessionExpiry reason now bcOk w).2) ∧
    (bcOk = false →
      TabSignal.logoutKeyWritten now
        ∈ (AuthStoreSync.handleSessionExpiry reason now bcOk w).2) ∧
    (∀ (t : Tab) (u2 : User) (now2 : Nat), t.store.auth.user = some u2 →
      ((onSignal now2 (.bcLogout reason) t).store.auth.user = none ∧
       (onSignal now2 (.bcLogout reason) t).navigatedTo = some "/auth/login") ∧
      ((onSignal now2 (.logoutKeyWritten now) t).store.auth.user = none ∧
       (onSignal now2 (.logoutKeyWritten now) t).navigatedTo
         = some "/auth/login") ∧
      ((onSignal now2 .authStorageRemoved t).store.auth.user = none ∧
       (onSignal now2 .authStorageRemoved t).navigatedTo
         = some "/auth/login")) := by
  refine ⟨?_, ?_, ?_, ?_, ?_, ?_⟩
  · simp [AuthStoreSync.handleSessionExpiry, hw, persistSet, persistedOf]
  · simp [AuthStoreSync.handleSessionExpiry, AuthStoreSync.logout, hw]
  · cases bcOk <;> simp [AuthStoreSync.handleSessionExpiry, hw]
  · intro hb
    subst hb
    simp [AuthStoreSync.handleSessionExpiry, hw]
  · intro hb
    subst hb
    simp [AuthStoreSync.handleSessionExpiry, hw]
  · intro t u2 now2 ht
    refine ⟨?_, ?_, ?_⟩ <;> simp [onSignal, ht, persistSet, persistedOf]

/-- Witness for C8 at a concrete state: a logged-in tab expiring at t=5
with the broadcast channel available, and a second logged-in tab receiving
the signals. -/
theorem session_expiry_cross_tab_witness :
    ((AuthStoreSync.handleSessionExpiry "api_unauthorized" 5 true
        { auth := { user := some demoUser, isLoading := false,
                    sessionExpiredAt := none },
          storage := some { user := some demoUser },
          socketConnected := true }).1.auth.user = none ∧
     TabSignal.bcLogout "api_unauthorized"
       ∈ (AuthStoreSync.handleSessionExpiry "api_unauthorized" 5 true
           { auth := { user := some demoUser, isLoading := false,
                       sessionExpiredAt := none },
             storage := some { user := some demoUser },
             socketConnected := true }).2) ∧
    ((onSignal 6 (.bcLogout "api_unauthorized")
        { store := { auth := { user := some demoUser, isLoading := false,
                               sessionExpiredAt := none },
                     storage := some { user := some demoUser },
                     socketConnected := true },
          navigatedTo := none }).store.auth.user = none ∧
     (onSignal 6 (.bcLogout "api_unauthorized")
        { store := { auth := { user := some demoUser, isLoading := false,
                               sessionExpiredAt := none },
                     storage := some { user := some demoUser },
                     socketConnected := true },
          navigatedTo := none }).navigatedTo = some "/auth/login") := by
  have h := session_expiry_cross_tab
    { auth := { user := some demoUser, isLoading := false,
                sessionExpiredAt := none },
      storage := some { user := some demoUser }, socketConnected := true }
    demoUser "api_unauthorized" 5 true rfl
  have hr := h.2.2.2.2.2
    { store := { auth := { user := some demoUser, isLoading := false,
                           sessionExpiredAt := none },
                 storage := some { user := some demoUser },
                 socketConnected := true },
      navigatedTo := none } demoUser 6 rfl
  exact ⟨⟨h.1.1, h.2.2.2.1 rfl⟩, hr.1⟩

/-- C9: a failed `login` leaves the store unauthenticated (the user slot is
unchanged, so no session is installed, and `isLoading` is cleared), and the
rejection distinguishes a backend-reported failure — an error response
whose message is surfaced verbatim — from a transport/network failure,
which is surfaced as the generic "Unknown error occurred" category. -/
theorem login_failure_distinguishes (w : StoreState) (m : String)
    (hm : m ≠ "") :
    ((AuthStoreSync.login (.httpErr (some m)) w).1.auth.user = w.auth.user ∧
     (AuthStoreSync.login (.httpErr (some m)) w).1.auth.isLoading = false ∧
     (AuthStoreSync.login (.httpErr (some m)) w).2 = .error m) ∧
    ((AuthStoreSync.login .netErr w).1.auth.user = w.auth.user ∧
     (AuthStoreSync.login .netErr w).1.auth.isLoading = false ∧
     (AuthStoreSync.login .netErr w).2 = .error "Unknown error occurred") := by
  constructor
  · refine ⟨rfl, rfl, ?_⟩
    simp [AuthStoreSync.login, AuthStoreSync.jsOr, hm]
  · exact ⟨rfl, rfl, rfl⟩

/-- Witness for C9: a failing login against an unauthenticated store, with
the backend message "Invalid credentials" for the reported failure. -/
theorem login_failure_distinguishes_witness :
    ((AuthStoreSync.login (.httpErr (some "Invalid credentials"))
        { auth := { user := none, isLoading := true, sessionExpiredAt := none },
          storage := none, socketConnected := false }).1.auth.user = none ∧
     (AuthStoreSync.login (.httpErr (some "Invalid credentials"))
        { auth := { user := none, isLoading := true, sessionExpiredAt := none },
          storage := none, socketConnected := false }).2
       = .error "Invalid credentials") ∧
    (AuthStoreSync.login .netErr
        { auth := { user := none, isLoading := true, sessionExpiredAt := none },
          storage := none, socketConnected := false }).2
      = .error "Unknown error occurred" := by
  have h := login_failure_distinguishes
    { auth := { user := none, isLoading := true, sessionExpiredAt := none },
      storage := none, socketConnected := false }
    "Invalid credentials" (by decide)
  exact ⟨⟨h.1.1, h.1.2.2⟩, h.2.2.2⟩
